import Mathlib

/-!
Verification of the DBZ codec library (dbz-lib): a shallow embedding of
`src/dbz-lib/src/read.rs` (metadata framing, parsing, and the record
iterator) and `src/dbz-lib/src/python.rs` (the `write_dbz_file` entry
point), with theorems settling the specification's claims about them.

Bytes are modelled as natural numbers (`List Nat`); strings read from the
wire are kept as their UTF-8 byte lists. Machine arithmetic that can wrap
is made explicit with `% 2 ^ 64`. Fallible Rust code returning
`anyhow::Result` is modelled with an explicit result type that also
records the third possible outcome of the source, an out-of-bounds slice
panic.
-/

namespace DbzSpec

/-- The little-endian value of a byte list (least significant byte first). -/
def leNat : List Nat → Nat
  | [] => 0
  | b :: rest => b % 256 + 256 * leNat rest

/-- The `w` little-endian bytes of `v % 2 ^ (8 * w)`. -/
def leBytes : Nat → Nat → List Nat
  | 0, _ => []
  | w + 1, v => v % 256 :: leBytes w (v / 256)

/-- A UTF-8 continuation byte: `0x80 ≤ b ≤ 0xBF`. -/
def utf8Cont (b : Nat) : Bool := 0x80 ≤ b && b ≤ 0xBF

/-- Strict UTF-8 validity of a byte sequence, as checked by Rust's
`std::str::from_utf8`: continuation-byte counts per leading byte, and the
leading-byte-dependent ranges that reject overlong forms, surrogates and
code points above U+10FFFF. -/
def utf8Valid : List Nat → Bool
  | [] => true
  | b :: rest =>
    if b ≤ 0x7F then utf8Valid rest
    else if b < 0xC2 then false
    else if b ≤ 0xDF then
      match rest with
      | c1 :: rest1 => utf8Cont c1 && utf8Valid rest1
      | [] => false
    else if b ≤ 0xEF then
      match rest with
      | c1 :: c2 :: rest2 =>
        (if b = 0xE0 then decide (0xA0 ≤ c1 && c1 ≤ 0xBF)
         else if b = 0xED then decide (0x80 ≤ c1 && c1 ≤ 0x9F)
         else utf8Cont c1) && utf8Cont c2 && utf8Valid rest2
      | _ => false
    else if b ≤ 0xF4 then
      match rest with
      | c1 :: c2 :: c3 :: rest3 =>
        (if b = 0xF0 then decide (0x90 ≤ c1 && c1 ≤ 0xBF)
         else if b = 0xF4 then decide (0x80 ≤ c1 && c1 ≤ 0x8F)
         else utf8Cont c1) && utf8Cont c2 && utf8Cont c3 && utf8Valid rest3
      | _ => false
    else false

/-- Remove every trailing NUL byte, keeping interior ones: Rust's
`str::trim_end_matches('\0')` at the byte level. -/
def stripTrailingNuls (l : List Nat) : List Nat :=
  (l.reverse.dropWhile (· == 0)).reverse

/-- The error values the decoder can return (`anyhow::Error` messages,
abstracted to their kind as the error model of the spec does). -/
inductive DbzError where
  /-- "Invalid metadata: no zstd magic number" -/
  | badMagic
  /-- "Frame length cannot be shorter than the fixed metadata size" -/
  | frameTooShort
  /-- A failed `read_exact` on the underlying reader, naming what was
  being read ("prelude" or "metadata"). -/
  | truncatedInput (what : String)
  /-- "Invalid version string" -/
  | invalidVersionString
  /-- "Can't read newer version of DBZ" -/
  | unsupportedVersion
  /-- "Failed to read dataset from metadata" (dataset bytes not UTF-8) -/
  | invalidUtf8Dataset
  /-- An enum byte or word not in its table, with the offending value. -/
  | unknownEnum (kind : String) (value : Nat)
  /-- "This version of dbz can't parse schema definitions" -/
  | unsupportedSchemaDef
  /-- "Unexpected end of metadata buffer" from one of the variable-length
  sections or a symbol mapping. -/
  | truncatedMetadata
  /-- "Failed to decode bytes" (a 22-byte symbol field is not UTF-8). -/
  | invalidUtf8
  /-- An invalid packed date, with the raw value and the failing part
  ("month" for the month-range check, "date" for the calendar-day check). -/
  | invalidDate (raw : Nat) (part : String)
  deriving DecidableEq, Repr

/-- The outcome of running a piece of the decoder: an ordinary error value,
a success, or a Rust panic (an out-of-bounds slice index, which the source
does not guard in a few places). -/
inductive DResult (α : Type) where
  | panic : DResult α
  | err : DbzError → DResult α
  | ok : α → DResult α
  deriving DecidableEq, Repr

/-- The data record schema (`db_def::enums::Schema`).
Modelled from the spec: the defining crate `db_def` is not among the
source files; the variants are the enumerated tick families listed in the
spec's data model, stored as unsigned 16-bit little-endian with numeric
codes following the listed order. -/
inductive Schema where
  | mbo | mbp1 | mbp10 | tbbo | trades
  | ohlcv1s | ohlcv1m | ohlcv1h | ohlcv1d
  | definition | statistics | status
  deriving DecidableEq, Repr

/-- Modelled from the spec: the stable numeric wire code of each schema. -/
def Schema.toNat : Schema → Nat
  | .mbo => 0 | .mbp1 => 1 | .mbp10 => 2 | .tbbo => 3 | .trades => 4
  | .ohlcv1s => 5 | .ohlcv1m => 6 | .ohlcv1h => 7 | .ohlcv1d => 8
  | .definition => 9 | .statistics => 10 | .status => 11

/-- Modelled from the spec: `try_from(numeric) → enum | ErrUnknownEnum`. -/
def Schema.tryFrom (v : Nat) : Option Schema :=
  if v = 0 then some .mbo else if v = 1 then some .mbp1
  else if v = 2 then some .mbp10 else if v = 3 then some .tbbo
  else if v = 4 then some .trades else if v = 5 then some .ohlcv1s
  else if v = 6 then some .ohlcv1m else if v = 7 then some .ohlcv1h
  else if v = 8 then some .ohlcv1d else if v = 9 then some .definition
  else if v = 10 then some .statistics else if v = 11 then some .status
  else none

/-- Modelled from the spec: `parse(text) → enum | ErrUnknownEnum`, with the
short ASCII names used by the repository's test data files. -/
def Schema.parse (s : String) : Option Schema :=
  if s = "mbo" then some .mbo else if s = "mbp-1" then some .mbp1
  else if s = "mbp-10" then some .mbp10 else if s = "tbbo" then some .tbbo
  else if s = "trades" then some .trades else if s = "ohlcv-1s" then some .ohlcv1s
  else if s = "ohlcv-1m" then some .ohlcv1m else if s = "ohlcv-1h" then some .ohlcv1h
  else if s = "ohlcv-1d" then some .ohlcv1d else if s = "definition" then some .definition
  else if s = "statistics" then some .statistics else if s = "status" then some .status
  else none

/-- The data compression mode (`db_def::enums::Compression`).
Modelled from the spec: an 8-bit enum with variants None and ZStd. -/
inductive Compression where
  | nocompression | zstd
  deriving DecidableEq, Repr

/-- Modelled from the spec: numeric wire codes of the compression modes. -/
def Compression.toNat : Compression → Nat
  | .nocompression => 0 | .zstd => 1

/-- Modelled from the spec: numeric to `Compression` conversion. -/
def Compression.tryFrom (v : Nat) : Option Compression :=
  if v = 0 then some .nocompression else if v = 1 then some .zstd else none

/-- The symbology type (`db_def::enums::SType`).
Modelled from the spec: an 8-bit enum of symbology namespaces; the
defining crate is not among the source files, so representative distinct
codes are used. -/
inductive SType where
  | native | productId | smart
  deriving DecidableEq, Repr

/-- Modelled from the spec: numeric wire codes of the symbology types. -/
def SType.toNat : SType → Nat
  | .native => 1 | .productId => 2 | .smart => 3

/-- Modelled from the spec: numeric to `SType` conversion. -/
def SType.tryFrom (v : Nat) : Option SType :=
  if v = 1 then some .native else if v = 2 then some .productId
  else if v = 3 then some .smart else none

/-- Modelled from the spec: text to `SType` conversion. -/
def SType.parse (s : String) : Option SType :=
  if s = "native" then some .native
  else if s = "product_id" then some .productId
  else if s = "smart" then some .smart else none

/-- A calendar date, standing for `time::Date` (year, month, day). -/
structure Date where
  year : Nat
  month : Nat
  day : Nat
  deriving DecidableEq, Repr

/-- Gregorian leap-year rule. -/
def isLeapYear (y : Nat) : Bool :=
  y % 4 == 0 && (y % 100 != 0 || y % 400 == 0)

/-- Days in a month of the Gregorian calendar (month numbered 1..12). -/
def daysInMonth (y m : Nat) : Nat :=
  if m = 2 then (if isLeapYear y then 29 else 28)
  else if m = 4 ∨ m = 6 ∨ m = 9 ∨ m = 11 then 30
  else 31

/-- A native symbol and its mapping intervals. -/
structure MappingInterval where
  start_date : Date
  end_date : Date
  symbol : List Nat
  deriving DecidableEq, Repr

/-- A native symbol with the mappings of it for different date ranges. -/
structure SymbolMapping where
  native : List Nat
  intervals : List MappingInterval
  deriving DecidableEq, Repr

/-- Information about the data contained in a DBZ file (`Metadata` of
`read.rs`). Strings are kept as UTF-8 byte lists; `partialSyms` embeds the
source field `partial` (a Lean keyword). -/
structure Metadata where
  version : Nat
  dataset : List Nat
  schema : Schema
  start : Nat
  endTs : Nat
  limit : Nat
  record_count : Nat
  compression : Compression
  stype_in : SType
  stype_out : SType
  symbols : List (List Nat)
  partialSyms : List (List Nat)
  not_found : List (List Nat)
  mappings : List SymbolMapping
  deriving DecidableEq, Repr

/-- `Metadata::SCHEMA_VERSION`. -/
def SCHEMA_VERSION : Nat := 1

/-- `u32::from_le_slice(&buffer[pos..])`: `none` is the panic of slicing
past the end or of `split_at` on fewer than 4 remaining bytes. -/
def readU32 (buffer : List Nat) (pos : Nat) : Option Nat :=
  if pos + 4 ≤ buffer.length then some (leNat ((buffer.drop pos).take 4)) else none

/-- `u16::from_le_slice(&buffer[pos..])`, as `readU32`. -/
def readU16 (buffer : List Nat) (pos : Nat) : Option Nat :=
  if pos + 2 ≤ buffer.length then some (leNat ((buffer.drop pos).take 2)) else none

/-- `u64::from_le_slice(&buffer[pos..])`, as `readU32`. -/
def readU64 (buffer : List Nat) (pos : Nat) : Option Nat :=
  if pos + 8 ≤ buffer.length then some (leNat ((buffer.drop pos).take 8)) else none

/-- `Metadata::decode_iso8601`: split a base-10 `YYYYMMDD` packed `u32`
into year `raw / 10000`, month `raw % 10000 / 100` and day
`raw % 10000 % 100`; a month outside 1..12 fails the `Month::try_from`
conversion ("Invalid month ..."), and the day is checked by
`time::Date::from_calendar_date` ("Couldn't convert ... to a valid
date"). The external `time` crate's calendar-day validation is modelled
from the spec as the Gregorian rule. -/
def Metadata.decodeIso8601 (raw : Nat) : DResult Date :=
  if raw % 10000 / 100 < 1 ∨ 12 < raw % 10000 / 100 then
    .err (.invalidDate raw "month")
  else if 1 ≤ raw % 10000 % 100 ∧
      raw % 10000 % 100 ≤ daysInMonth (raw / 10000) (raw % 10000 / 100) then
    .ok ⟨raw / 10000, raw % 10000 / 100, raw % 10000 % 100⟩
  else .err (.invalidDate raw "date")

/-- `Metadata::decode_symbol`: slice 22 bytes at the cursor (panicking,
like the source, when fewer remain), require UTF-8, strip trailing NULs
and advance the cursor; on a UTF-8 failure the cursor is not advanced. -/
def Metadata.decodeSymbol (buffer : List Nat) (pos : Nat) :
    DResult (List Nat) × Nat :=
  if pos + 22 ≤ buffer.length then
    if utf8Valid ((buffer.drop pos).take 22) then
      (.ok (stripTrailingNuls ((buffer.drop pos).take 22)), pos + 22)
    else (.err .invalidUtf8, pos)
  else (.panic, pos)

/-- The loop of `Metadata::decode_repeated_symbol_cstr`: `count` calls to
`decode_symbol`, threading the cursor. -/
def decodeSymbolsLoop (buffer : List Nat) (pos : Nat) :
    Nat → DResult (List (List Nat)) × Nat
  | 0 => (.ok [], pos)
  | n + 1 =>
    match Metadata.decodeSymbol buffer pos with
    | (.ok s, pos1) =>
      match decodeSymbolsLoop buffer pos1 n with
      | (.ok rest, pos2) => (.ok (s :: rest), pos2)
      | (.err e, p) => (.err e, p)
      | (.panic, p) => (.panic, p)
    | (.err e, p) => (.err e, p)
    | (.panic, p) => (.panic, p)

/-- `Metadata::decode_repeated_symbol_cstr`: a `u32` count (bounds-checked
against the buffer), a bounds check for `count * 22` symbol bytes, then
the symbols themselves. -/
def Metadata.decodeRepeatedSymbolCstr (buffer : List Nat) (pos : Nat) :
    DResult (List (List Nat)) × Nat :=
  if pos + 4 > buffer.length then (.err .truncatedMetadata, pos)
  else
    match readU32 buffer pos with
    | none => (.panic, pos)
    | some count =>
      if pos + 4 + count * 22 > buffer.length then
        (.err .truncatedMetadata, pos + 4)
      else decodeSymbolsLoop buffer (pos + 4) count

/-- The interval loop of `Metadata::decode_symbol_mapping`: raw start
date, raw end date (each decoded with `decode_iso8601`) and a symbol, per
interval. -/
def decodeIntervalsLoop (buffer : List Nat) (pos : Nat) :
    Nat → DResult (List MappingInterval) × Nat
  | 0 => (.ok [], pos)
  | n + 1 =>
    match readU32 buffer pos with
    | none => (.panic, pos)
    | some rawStart =>
      match Metadata.decodeIso8601 rawStart with
      | .err e => (.err e, pos + 4)
      | .panic => (.panic, pos + 4)
      | .ok start_date =>
        match readU32 buffer (pos + 4) with
        | none => (.panic, pos + 4)
        | some rawEnd =>
          match Metadata.decodeIso8601 rawEnd with
          | .err e => (.err e, pos + 8)
          | .panic => (.panic, pos + 8)
          | .ok end_date =>
            match Metadata.decodeSymbol buffer (pos + 8) with
            | (.ok symbol, pos1) =>
              match decodeIntervalsLoop buffer pos1 n with
              | (.ok rest, pos2) =>
                (.ok (⟨start_date, end_date, symbol⟩ :: rest), pos2)
              | (.err e, p) => (.err e, p)
              | (.panic, p) => (.panic, p)
            | (.err e, p) => (.err e, p)
            | (.panic, p) => (.panic, p)

/-- `Metadata::decode_symbol_mapping`: a minimum-size bounds check (22-byte
native symbol plus a `u32` interval count), the native symbol, the count,
a bounds check for `count * 30` interval bytes, then the intervals. -/
def Metadata.decodeSymbolMapping (buffer : List Nat) (pos : Nat) :
    DResult SymbolMapping × Nat :=
  if pos + 26 > buffer.length then (.err .truncatedMetadata, pos)
  else
    match Metadata.decodeSymbol buffer pos with
    | (.ok native, pos1) =>
      match readU32 buffer pos1 with
      | none => (.panic, pos1)
      | some interval_count =>
        if pos1 + 4 + interval_count * 30 > buffer.length then
          (.err .truncatedMetadata, pos1 + 4)
        else
          match decodeIntervalsLoop buffer (pos1 + 4) interval_count with
          | (.ok intervals, pos3) => (.ok ⟨native, intervals⟩, pos3)
          | (.err e, p) => (.err e, p)
          | (.panic, p) => (.panic, p)
    | (.err e, p) => (.err e, p)
    | (.panic, p) => (.panic, p)

/-- The mapping loop of `Metadata::decode_symbol_mappings`. -/
def decodeMappingsLoop (buffer : List Nat) (pos : Nat) :
    Nat → DResult (List SymbolMapping) × Nat
  | 0 => (.ok [], pos)
  | n + 1 =>
    match Metadata.decodeSymbolMapping buffer pos with
    | (.ok sm, pos1) =>
      match decodeMappingsLoop buffer pos1 n with
      | (.ok rest, pos2) => (.ok (sm :: rest), pos2)
      | (.err e, p) => (.err e, p)
      | (.panic, p) => (.panic, p)
    | (.err e, p) => (.err e, p)
    | (.panic, p) => (.panic, p)

/-- `Metadata::decode_symbol_mappings`: a `u32` count (bounds-checked),
then `count` symbol mappings. -/
def Metadata.decodeSymbolMappings (buffer : List Nat) (pos : Nat) :
    DResult (List SymbolMapping) × Nat :=
  if pos + 4 > buffer.length then (.err .truncatedMetadata, pos)
  else
    match readU32 buffer pos with
    | none => (.panic, pos)
    | some count => decodeMappingsLoop buffer (pos + 4) count

/-- `Metadata::decode`: the fixed metadata region at its deterministic
offsets (version C-string, dataset, schema, the four `u64` fields, the
three enum bytes, 39 reserved bytes, the schema-definition length), then
the four variable-length sections. Unchecked slice indexing of the source
is rendered as `.panic`; in particular the `u32` read of the
schema-definition length at offset 96 is not bounds-checked. -/
def Metadata.decode (metadata_buffer : List Nat) : DResult Metadata :=
  if metadata_buffer.length < 3 then .panic
  else if metadata_buffer.take 3 ≠ [68, 66, 90] then .err .invalidVersionString
  else
    match metadata_buffer[3]? with
    | none => .panic
    | some version =>
      if version > SCHEMA_VERSION then .err .unsupportedVersion
      else if metadata_buffer.length < 20 then .panic
      else
        if ¬utf8Valid ((metadata_buffer.drop 4).take 16) then
          .err .invalidUtf8Dataset
        else
          match readU16 metadata_buffer 20 with
          | none => .panic
          | some rawSchema =>
            match Schema.tryFrom rawSchema with
            | none => .err (.unknownEnum "schema" rawSchema)
            | some schema =>
              match readU64 metadata_buffer 22, readU64 metadata_buffer 30,
                  readU64 metadata_buffer 38, readU64 metadata_buffer 46 with
              | some start, some endTs, some limit, some record_count =>
                match metadata_buffer[54]?, metadata_buffer[55]?,
                    metadata_buffer[56]? with
                | some rawComp, some rawStIn, some rawStOut =>
                  match Compression.tryFrom rawComp with
                  | none => .err (.unknownEnum "compression" rawComp)
                  | some compression =>
                    match SType.tryFrom rawStIn with
                    | none => .err (.unknownEnum "stype_in" rawStIn)
                    | some stype_in =>
                      match SType.tryFrom rawStOut with
                      | none => .err (.unknownEnum "stype_out" rawStOut)
                      | some stype_out =>
                        match readU32 metadata_buffer 96 with
                        | none => .panic
                        | some schema_definition_length =>
                          if schema_definition_length ≠ 0 then
                            .err .unsupportedSchemaDef
                          else
                            match Metadata.decodeRepeatedSymbolCstr
                                metadata_buffer
                                (100 + schema_definition_length) with
                            | (.ok symbols, pos1) =>
                              match Metadata.decodeRepeatedSymbolCstr
                                  metadata_buffer pos1 with
                              | (.ok partialSyms, pos2) =>
                                match Metadata.decodeRepeatedSymbolCstr
                                    metadata_buffer pos2 with
                                | (.ok not_found, pos3) =>
                                  match Metadata.decodeSymbolMappings
                                      metadata_buffer pos3 with
                                  | (.ok mappings, _) =>
                                    .ok ⟨version,
                                      stripTrailingNuls
                                        ((metadata_buffer.drop 4).take 16),
                                      schema, start,
                                      endTs, limit, record_count, compression,
                                      stype_in, stype_out, symbols,
                                      partialSyms, not_found, mappings⟩
                                  | (.err e, _) => .err e
                                  | (.panic, _) => .panic
                                | (.err e, _) => .err e
                                | (.panic, _) => .panic
                              | (.err e, _) => .err e
                              | (.panic, _) => .panic
                            | (.err e, _) => .err e
                            | (.panic, _) => .panic
                | _, _, _ => .panic
              | _, _, _, _ => .panic

/-- `Metadata::ZSTD_MAGIC_RANGE.start`. -/
def ZSTD_MAGIC_LO : Nat := 0x184D2A50

/-- `Metadata::ZSTD_MAGIC_RANGE.end` (exclusive). -/
def ZSTD_MAGIC_HI : Nat := 0x184D2A60

/-- `Metadata::read` over a byte stream: read the 8-byte prelude
(failing with a "Failed to read metadata prelude" context on fewer
bytes), check the zstd skippable-frame magic range, check
`frame_size ≥ 96`, read exactly `frame_size` payload bytes (failing with
a "Failed to read metadata" context on fewer) and decode them. Returns
the result together with the bytes left unconsumed in the stream. -/
def Metadata.read (input : List Nat) : DResult Metadata × List Nat :=
  if input.length < 8 then (.err (.truncatedInput "prelude"), input)
  else if leNat (input.take 4) < ZSTD_MAGIC_LO ∨
      ZSTD_MAGIC_HI ≤ leNat (input.take 4) then
    (.err .badMagic, input.drop 8)
  else if leNat ((input.drop 4).take 4) < 96 then
    (.err .frameTooShort, input.drop 8)
  else if (input.drop 8).length < leNat ((input.drop 4).take 4) then
    (.err (.truncatedInput "metadata"), [])
  else
    (Metadata.decode ((input.drop 8).take (leNat ((input.drop 4).take 4))),
      input.drop (8 + leNat ((input.drop 4).take 4)))

/-- The statically-typed fixed-size record variants (`db_def::tick`).
Modelled from the spec: the record layout registry's variants and their
compile-time sizes follow the record field lists of the data model
(`TbboMsg` uses the one-level book layout of `Mbp1Msg`). -/
inductive TickVariant where
  | tickMsg | tradeMsg | mbp1Msg | mbp10Msg | ohlcvMsg
  deriving DecidableEq, Repr

/-- Modelled from the spec: each variant's fixed byte size `S` (a 16-byte
common header plus the listed fields). -/
def TickVariant.size : TickVariant → Nat
  | .tickMsg => 56 | .tradeMsg => 48 | .mbp1Msg => 80
  | .mbp10Msg => 368 | .ohlcvMsg => 56

/-- Modelled from the spec: each variant's unique type-ID tag `T` (the
spec fixes only that the tags are compile-time constants, unique per
variant; the defining crate is not among the source files, so
representative distinct values stand for them). -/
def TickVariant.typeId : TickVariant → Nat
  | .tickMsg => 1 | .tradeMsg => 2 | .mbp1Msg => 3
  | .mbp10Msg => 4 | .ohlcvMsg => 5

/-- All record variants, for the tag dispatch of `Tick::new`. -/
def tickVariants : List TickVariant :=
  [.tickMsg, .tradeMsg, .mbp1Msg, .mbp10Msg, .ohlcvMsg]

/-- `Tick::new` over a record buffer. Modelled from the spec: dispatch on
the `rtype` byte (`buffer[1]`) to a known record variant, validating that
the `length` byte (`buffer[0]`) equals the variant's size in 32-bit
words; any mismatch is an error. The resulting `Tick` value is the
variant together with the raw record bytes. -/
def Tick.new (buf : List Nat) : Option (TickVariant × List Nat) :=
  match buf[1]? with
  | none => none
  | some rtype =>
    match tickVariants.find? (fun v => v.typeId == rtype) with
    | none => none
    | some v =>
      if buf[0]? = some (v.size / 4) then some (v, buf) else none

/-- The state of a `DbzIntoIter`: the remaining decompressed record
bytes, the running index `i` of decoded records, and the advisory
`metadata.record_count`. -/
structure IterState where
  stream : List Nat
  i : Nat
  record_count : Nat
  deriving DecidableEq, Repr

/-- `DbzIntoIter::next` for requested record variant `T`: read exactly
`size_of T` bytes (any shortfall, zero included, ends iteration), build a
`Tick` from them (a failure is logged and ends iteration), bump `i`, and
convert the tick to `T` with `T::try_from(tick).ok()` — a tick of another
variant makes `next` return `none`. The new iterator state is returned
alongside. -/
def DbzIntoIter.next (T : TickVariant) (s : IterState) :
    Option (List Nat) × IterState :=
  if s.stream.length < T.size then (none, s)
  else
    match Tick.new (s.stream.take T.size) with
    | none => (none, { s with stream := s.stream.drop T.size })
    | some t =>
      if t.1 = T then
        (some t.2, ⟨s.stream.drop T.size, s.i + 1, s.record_count⟩)
      else (none, ⟨s.stream.drop T.size, s.i + 1, s.record_count⟩)

/-- `DbzIntoIter::size_hint`:
`remaining = self.metadata.record_count as usize - self.i` on a 64-bit
target in release mode, i.e. a wrapping subtraction modulo `2 ^ 64`. -/
def DbzIntoIter.sizeHint (s : IterState) : Nat × Option Nat :=
  let remaining :=
    (s.record_count % 2 ^ 64 + 2 ^ 64 - s.i % 2 ^ 64) % 2 ^ 64
  (remaining, some remaining)

/-- Zero-pad (or cut) a byte list to exactly `n` bytes, for the
fixed-width C-string fields of the wire format. -/
def padTo (n : Nat) (l : List Nat) : List Nat :=
  l.take n ++ List.replicate (n - l.length) 0

/-- Modelled from the spec: the encoding of a packed `YYYYMMDD` date
(inverse of `decode_iso8601`). -/
def encodeDate (d : Date) : List Nat :=
  leBytes 4 (d.year * 10000 + d.month * 100 + d.day)

/-- Modelled from the spec: one encoded mapping interval
(start date, end date, 22-byte symbol). -/
def encodeInterval (iv : MappingInterval) : List Nat :=
  encodeDate iv.start_date ++ encodeDate iv.end_date ++ padTo 22 iv.symbol

/-- Modelled from the spec: one encoded symbol mapping (22-byte native
symbol, `u32` interval count, the intervals). -/
def encodeMapping (sm : SymbolMapping) : List Nat :=
  padTo 22 sm.native ++ leBytes 4 sm.intervals.length ++
    (sm.intervals.map encodeInterval).flatten

/-- Modelled from the spec: a `u32`-count-prefixed symbol section. -/
def encodeSymbolSection (syms : List (List Nat)) : List Nat :=
  leBytes 4 syms.length ++ (syms.map (padTo 22)).flatten

/-- `Metadata::encode`. Modelled from the spec: the writer module
(`write.rs`) is not among the source files; this follows the metadata
codec's Write algorithm — a prelude with the skippable-frame magic and
the back-patched frame size, the fixed region at its offsets, a zero
schema-definition length, then the four variable-length sections. -/
def Metadata.encode (m : Metadata) : List Nat :=
  let payload :=
    [68, 66, 90, m.version]
    ++ padTo 16 m.dataset
    ++ leBytes 2 m.schema.toNat
    ++ leBytes 8 m.start ++ leBytes 8 m.endTs
    ++ leBytes 8 m.limit ++ leBytes 8 m.record_count
    ++ [m.compression.toNat, m.stype_in.toNat, m.stype_out.toNat]
    ++ List.replicate 39 0
    ++ leBytes 4 0
    ++ encodeSymbolSection m.symbols
    ++ encodeSymbolSection m.partialSyms
    ++ encodeSymbolSection m.not_found
    ++ leBytes 4 m.mappings.length ++ (m.mappings.map encodeMapping).flatten
  leBytes 4 ZSTD_MAGIC_LO ++ leBytes 4 payload.length ++ payload

/-- The error taxonomy of the Python-facing writer (`PyErr` kinds). -/
inductive WriteError where
  /-- A `PyValueError`, carrying its message. -/
  | valueError (msg : String)
  /-- A record-header type mismatch (the spec's `ErrTypeMismatch`). -/
  | typeMismatch
  /-- A `PyKeyError` from a record dict missing a required field. -/
  | missingField
  deriving DecidableEq, Repr

/-- A flat Python record dict, as the bindings shim sees it. Modelled
from the spec: the shim converts each dict to a typed record of the
schema's variant, failing when a required field is missing; the codec
sees only the resulting typed record bytes, so a dict is modelled by the
record bytes it yields per variant (`none` when a field is missing). -/
structure PyDict where
  toRecord : TickVariant → Option (List Nat)

/-- The record variant the `write_dbz_file` match arm picks for each
schema; `none` for the unwritable schemas (Definition, Statistics,
Status). -/
def Schema.variantFor : Schema → Option TickVariant
  | .mbo => some .tickMsg
  | .mbp1 => some .mbp1Msg
  | .mbp10 => some .mbp10Msg
  | .tbbo => some .mbp1Msg
  | .trades => some .tradeMsg
  | .ohlcv1s => some .ohlcvMsg
  | .ohlcv1m => some .ohlcvMsg
  | .ohlcv1h => some .ohlcvMsg
  | .ohlcv1d => some .ohlcvMsg
  | .definition => none
  | .statistics => none
  | .status => none

/-- The zstd-compressed record body. Modelled abstractly: zstd is an
external collaborator whose output bytes none of the claims constrain;
only that the body follows the encoded metadata matters here. -/
def zstdCompress (body : List Nat) : List Nat := body

/-- The record conversion of `write_records_to_dbz`: convert every dict
to a typed record of variant `v` (`collect::<PyResult<Vec<T>>>`), failing
on the first dict missing a required field. -/
def convertRecords (v : TickVariant) : List PyDict → Option (List (List Nat))
  | [] => some []
  | d :: rest =>
    match d.toRecord v, convertRecords v rest with
    | some r, some rs => some (r :: rs)
    | _, _ => none

/-- The `Metadata` value `write_dbz_file` builds (lines 121–136 of
`python.rs`): most fields are inferred — zero `start`, `end` and `limit`,
`record_count` from the input list length, no compression, the same
symbology type in and out, and empty symbol sections. -/
def writeDbzFileMetadata (schema : Schema) (stype : SType)
    (dataset : List Nat) (n : Nat) : Metadata :=
  { version := SCHEMA_VERSION
    dataset := dataset
    schema := schema
    start := 0
    endTs := 0
    limit := 0
    record_count := n
    compression := .nocompression
    stype_in := stype
    stype_out := stype
    symbols := []
    partialSyms := []
    not_found := []
    mappings := [] }

/-- `write_dbz_file`: parse the schema and stype strings, build the
inferred `Metadata`, encode it to the sink, then dispatch on the schema —
unwritable schemas fail with a `ValueError` (after the metadata bytes are
already on the sink), writable ones convert every record dict (a missing
field fails, leaving the sink at just the metadata) and append the
compressed record body. Returns the result and the sink's final bytes. -/
def writeDbzFile (schemaStr stypeStr : String) (dataset : List Nat)
    (records : List PyDict) : Except WriteError Unit × List Nat :=
  match Schema.parse schemaStr with
  | none => (.error (.valueError "unknown schema"), [])
  | some schema =>
    match SType.parse stypeStr with
    | none => (.error (.valueError "unknown stype"), [])
    | some stype =>
      match schema.variantFor with
      | none =>
        (.error (.valueError "Unsupported schema type for writing DBZ files"),
          (writeDbzFileMetadata schema stype dataset records.length).encode)
      | some v =>
        match convertRecords v records with
        | none => (.error .missingField,
            (writeDbzFileMetadata schema stype dataset records.length).encode)
        | some recs => (.ok (),
            (writeDbzFileMetadata schema stype dataset records.length).encode
              ++ zstdCompress recs.flatten)

/-! Concrete sample data used by witnesses and counterexamples. -/

/-- A complete, minimal valid metadata payload: version 1, all-zero
dataset, schema Mbo, zero timestamps and counts, no compression, native
symbology, a zero schema-definition length, and all four variable-length
sections empty; 116 bytes. -/
def validPayload116 : List Nat :=
  [68, 66, 90, 1] ++ List.replicate 16 0 ++ [0, 0] ++ List.replicate 32 0
  ++ [0, 1, 1] ++ List.replicate 39 0 ++ List.replicate 4 0
  ++ List.replicate 16 0

/-- A complete valid artifact head: skippable-frame prelude declaring a
116-byte frame, then `validPayload116`. -/
def validArtifact : List Nat :=
  leBytes 4 ZSTD_MAGIC_LO ++ leBytes 4 116 ++ validPayload116

/-- The `Metadata` value `validPayload116` decodes to. -/
def sampleMetadata : Metadata :=
  ⟨1, [], .mbo, 0, 0, 0, 0, .nocompression, .native, .native, [], [], [], []⟩

/-- A 56-byte record block whose header carries the `TradeMsg` type-ID
and word length, fed to an iterator that requests `TickMsg`. -/
def tradeTagged56 : List Nat := 12 :: 2 :: List.replicate 54 0

/-- A well-formed 56-byte `TickMsg` record block (length 14 words,
type-ID 1). -/
def mboRecord56 : List Nat := 14 :: 1 :: List.replicate 54 0

/-! ## C5 — decode_iso8601 -/

/-- C5: `decode_iso8601` maps a base-10 `YYYYMMDD` value to the calendar
date (year, month, day), errs with an invalid-date error mentioning
"month" exactly when the month digits lie outside 1..12, and errs with an
invalid-date error exactly when the day digits are not a valid calendar
day of that year and month. -/
theorem c5_decode_iso8601_correct (raw : Nat) :
    (1 ≤ raw % 10000 / 100 → raw % 10000 / 100 ≤ 12 →
      1 ≤ raw % 10000 % 100 →
      raw % 10000 % 100 ≤ daysInMonth (raw / 10000) (raw % 10000 / 100) →
      Metadata.decodeIso8601 raw =
        .ok ⟨raw / 10000, raw % 10000 / 100, raw % 10000 % 100⟩)
    ∧ ((raw % 10000 / 100 < 1 ∨ 12 < raw % 10000 / 100) →
      Metadata.decodeIso8601 raw = .err (.invalidDate raw "month"))
    ∧ (1 ≤ raw % 10000 / 100 → raw % 10000 / 100 ≤ 12 →
      (raw % 10000 % 100 < 1 ∨
        daysInMonth (raw / 10000) (raw % 10000 / 100) < raw % 10000 % 100) →
      Metadata.decodeIso8601 raw = .err (.invalidDate raw "date")) := by
  unfold Metadata.decodeIso8601
  refine ⟨fun h1 h2 h3 h4 => ?_, fun h => ?_, fun h1 h2 h => ?_⟩
  · rw [if_neg (by omega), if_pos ⟨h3, h4⟩]
  · rw [if_pos h]
  · rw [if_neg (by omega), if_neg (by omega)]

/-- C5 witness: `20151031` decodes to 2015-10-31, `20101305` fails with
an invalid-date error mentioning "month", and `20100600` fails with an
invalid-date error for the day. -/
theorem c5_decode_iso8601_correct_witness :
    Metadata.decodeIso8601 20151031 = .ok ⟨2015, 10, 31⟩ ∧
    Metadata.decodeIso8601 20101305 = .err (.invalidDate 20101305 "month") ∧
    Metadata.decodeIso8601 20100600 = .err (.invalidDate 20100600 "date") :=
  ⟨(c5_decode_iso8601_correct 20151031).1 (by decide) (by decide) (by decide)
      (by decide),
    (c5_decode_iso8601_correct 20101305).2.1 (by decide),
    (c5_decode_iso8601_correct 20100600).2.2 (by decide) (by decide)
      (by decide)⟩

/-! ## C6 — decode_symbol -/

/-- C6: with at least 22 bytes at the cursor, `decode_symbol` returns
those 22 bytes with trailing NUL bytes stripped and advances the cursor
by exactly 22 when they are valid UTF-8, and fails with an invalid-UTF-8
error leaving the cursor unadvanced when they are not. -/
theorem c6_decode_symbol_correct (buffer : List Nat) (pos : Nat)
    (h : pos + 22 ≤ buffer.length) :
    (utf8Valid ((buffer.drop pos).take 22) = true →
      Metadata.decodeSymbol buffer pos =
        (.ok (stripTrailingNuls ((buffer.drop pos).take 22)), pos + 22))
    ∧ (utf8Valid ((buffer.drop pos).take 22) = false →
      Metadata.decodeSymbol buffer pos = (.err .invalidUtf8, pos)) := by
  unfold Metadata.decodeSymbol
  rw [if_pos h]
  refine ⟨fun hv => ?_, fun hv => ?_⟩
  · rw [if_pos hv]
  · rw [if_neg (by simp [hv])]

/-- C6 witness: the 22 bytes of "SPX.1.2" followed by 15 NULs decode to
the bytes of "SPX.1.2" with the cursor advanced to 22, and a leading
continuation byte 0x80 fails with the cursor still at 0. -/
theorem c6_decode_symbol_correct_witness :
    Metadata.decodeSymbol ([83, 80, 88, 46, 49, 46, 50] ++
        List.replicate 15 0) 0 = (.ok [83, 80, 88, 46, 49, 46, 50], 0 + 22) ∧
    Metadata.decodeSymbol (128 :: List.replicate 21 0) 0 =
      (.err .invalidUtf8, 0) :=
  ⟨((c6_decode_symbol_correct ([83, 80, 88, 46, 49, 46, 50] ++
        List.replicate 15 0) 0 (by decide)).1 (by decide)).trans (by decide),
    (c6_decode_symbol_correct (128 :: List.replicate 21 0) 0 (by decide)).2
      (by decide)⟩

/-! ## C4 — size_hint -/

/-- C4 counterexample: from the reachable state after decoding one record
of a stream whose metadata declared `record_count = 0`, `size_hint` does
not return `record_count − i` (which is 0 as a natural number and is
negative as an integer): the release-mode usize subtraction wraps to
`2 ^ 64 − 1`. -/
theorem c4_counterexample :
    (DbzIntoIter.next .tickMsg ⟨mboRecord56, 0, 0⟩).1 = some mboRecord56 ∧
    (DbzIntoIter.next .tickMsg ⟨mboRecord56, 0, 0⟩).2 =
      ⟨[], 1, 0⟩ ∧
    (DbzIntoIter.sizeHint ⟨[], 1, 0⟩).1 ≠ (0 : Nat) - 1 ∧
    (DbzIntoIter.sizeHint ⟨[], 1, 0⟩).1 = 2 ^ 64 - 1 := by
  refine ⟨by decide, by decide, ?_, ?_⟩ <;> decide

/-- C4 amended: at every iterator state (with `i` and `record_count` in
`usize`/`u64` range), `size_hint` returns `(r, some r)` for
`r = (record_count − i) mod 2 ^ 64` — the wrapping subtraction — which
equals `record_count − i` whenever `i ≤ record_count`. -/
theorem c4_size_hint_wrapping (s : IterState)
    (hrc : s.record_count < 2 ^ 64) (hi : s.i < 2 ^ 64) :
    DbzIntoIter.sizeHint s =
      ((s.record_count + 2 ^ 64 - s.i) % 2 ^ 64,
        some ((s.record_count + 2 ^ 64 - s.i) % 2 ^ 64)) ∧
    (s.i ≤ s.record_count →
      (DbzIntoIter.sizeHint s).1 = s.record_count - s.i) := by
  unfold DbzIntoIter.sizeHint
  rw [Nat.mod_eq_of_lt hrc, Nat.mod_eq_of_lt hi]
  refine ⟨rfl, fun hle => ?_⟩
  have h : s.record_count + 2 ^ 64 - s.i = s.record_count - s.i + 2 ^ 64 := by
    omega
  simp only [h, Nat.add_mod_right]
  exact Nat.mod_eq_of_lt (by omega)

/-- C4 amended witness: at the state with `i = 3` and
`record_count = 10`, `size_hint` reports `10 − 3` remaining. -/
theorem c4_size_hint_wrapping_witness :
    (DbzIntoIter.sizeHint ⟨[], 3, 10⟩).1 = 10 - 3 :=
  (c4_size_hint_wrapping ⟨[], 3, 10⟩ (by decide) (by decide)).2 (by decide)

/-! ## C1 — record iteration on an rtype mismatch -/

/-- A successful `Tick::new` returns the variant whose type-ID is the
buffer's `rtype` byte, together with the buffer itself. -/
theorem Tick.new_some {buf : List Nat} {t : TickVariant × List Nat}
    (h : Tick.new buf = some t) :
    buf[1]? = some t.1.typeId ∧ t.2 = buf := by
  unfold Tick.new at h
  split at h
  · exact absurd h (by simp)
  · rename_i rtype h1
    split at h
    · exact absurd h (by simp)
    · rename_i v h2
      split at h
      · injection h with h
        subst h
        have hv : v.typeId = rtype := by simpa using List.find?_some h2
        exact ⟨by rw [h1, hv], rfl⟩
      · exact absurd h (by simp)

/-- C1 counterexample: a stream holding a record tagged with the
`TradeMsg` type-ID followed by a well-formed `TickMsg` record, iterated
with requested variant `TickMsg`: `next` on the mismatched record returns
`none` — ending iteration — instead of skipping it and yielding the
subsequent record (which the very next state would deliver). -/
theorem c1_counterexample :
    (tradeTagged56 ++ mboRecord56)[1]? = some 2 ∧
    TickVariant.typeId .tickMsg = 1 ∧
    DbzIntoIter.next .tickMsg ⟨tradeTagged56 ++ mboRecord56, 0, 2⟩ =
      (none, ⟨mboRecord56, 1, 2⟩) ∧
    DbzIntoIter.next .tickMsg ⟨mboRecord56, 1, 2⟩ =
      (some mboRecord56, ⟨[], 2, 2⟩) := by
  refine ⟨by decide, by decide, by decide, by decide⟩

/-- C1 amended: whenever the next record's `rtype` byte differs from the
requested variant's type-ID, the iterator returns `none`, ending
iteration (the record is not skipped; no subsequent record is yielded
through this call). -/
theorem c1_rtype_mismatch_stops_iteration (T : TickVariant) (s : IterState)
    (hlen : T.size ≤ s.stream.length)
    (hne : (s.stream.take T.size)[1]? ≠ some T.typeId) :
    (DbzIntoIter.next T s).1 = none := by
  unfold DbzIntoIter.next
  rw [if_neg (by omega)]
  cases h : Tick.new (s.stream.take T.size) with
  | none => rfl
  | some t =>
    have ⟨h1, _⟩ := Tick.new_some h
    have ht : t.1 ≠ T := fun hEq => hne (hEq ▸ h1)
    simp [ht]

/-- C1 amended witness: on the concrete mismatched stream, `next` with
requested variant `TickMsg` returns `none`. -/
theorem c1_rtype_mismatch_stops_iteration_witness :
    (DbzIntoIter.next .tickMsg
      ⟨tradeTagged56 ++ mboRecord56, 0, 2⟩).1 = none :=
  c1_rtype_mismatch_stops_iteration .tickMsg
    ⟨tradeTagged56 ++ mboRecord56, 0, 2⟩ (by decide) (by decide)

/-! ## C7 — prelude checks of Metadata::read -/

/-- C7 counterexample: a 4-byte input whose first four bytes decode (LE)
to 0, outside the skippable-frame magic range, makes `Metadata::read`
fail with the truncated-prelude read error, not with the bad-magic
error — so the bad-magic guarantee does not hold for every input whose
first four bytes are outside the range. -/
theorem c7_counterexample :
    leNat ([0, 0, 0, 0].take 4) < ZSTD_MAGIC_LO ∧
    Metadata.read [0, 0, 0, 0] =
      (.err (.truncatedInput "prelude"), [0, 0, 0, 0]) ∧
    (Metadata.read [0, 0, 0, 0]).1 ≠ .err .badMagic := by
  refine ⟨by decide, by decide, by decide⟩

/-- C7 amended: for every input of at least 8 bytes, `Metadata::read`
fails with the bad-magic error when the first four bytes (LE `u32`) fall
outside `[0x184D2A50, 0x184D2A60)`; fails when the magic is in range but
`frame_size` (bytes 4..8, LE `u32`) is less than 96; and when both checks
pass and the input suffices, reads exactly `frame_size` further bytes as
the metadata payload, decoding just those bytes (failing with a
truncated-metadata-read error when fewer than `frame_size` bytes
remain). -/
theorem c7_read_prelude_checks (input : List Nat) (h8 : 8 ≤ input.length) :
    (leNat (input.take 4) < ZSTD_MAGIC_LO ∨
        ZSTD_MAGIC_HI ≤ leNat (input.take 4) →
      Metadata.read input = (.err .badMagic, input.drop 8))
    ∧ (ZSTD_MAGIC_LO ≤ leNat (input.take 4) →
      leNat (input.take 4) < ZSTD_MAGIC_HI →
      leNat ((input.drop 4).take 4) < 96 →
      Metadata.read input = (.err .frameTooShort, input.drop 8))
    ∧ (ZSTD_MAGIC_LO ≤ leNat (input.take 4) →
      leNat (input.take 4) < ZSTD_MAGIC_HI →
      96 ≤ leNat ((input.drop 4).take 4) →
      leNat ((input.drop 4).take 4) ≤ input.length - 8 →
      Metadata.read input =
        (Metadata.decode ((input.drop 8).take (leNat ((input.drop 4).take 4))),
          input.drop (8 + leNat ((input.drop 4).take 4))))
    ∧ (ZSTD_MAGIC_LO ≤ leNat (input.take 4) →
      leNat (input.take 4) < ZSTD_MAGIC_HI →
      96 ≤ leNat ((input.drop 4).take 4) →
      input.length - 8 < leNat ((input.drop 4).take 4) →
      Metadata.read input = (.err (.truncatedInput "metadata"), [])) := by
  unfold Metadata.read
  rw [if_neg (by omega)]
  have hdrop : (input.drop 8).length = input.length - 8 := by
    simp [List.length_drop]
  refine ⟨fun h => ?_, fun h1 h2 h3 => ?_, fun h1 h2 h3 h4 => ?_,
    fun h1 h2 h3 h4 => ?_⟩
  · rw [if_pos h]
  · rw [if_neg (by omega), if_pos h3]
  · rw [if_neg (by omega), if_neg (by omega), if_neg (by omega)]
  · rw [if_neg (by omega), if_neg (by omega), if_pos (by omega)]

/-- C7 amended witness: eight zero bytes (magic 0, outside the range)
fail with the bad-magic error. -/
theorem c7_read_prelude_checks_witness :
    Metadata.read (List.replicate 8 0) =
      (.err .badMagic, (List.replicate 8 0).drop 8) :=
  (c7_read_prelude_checks (List.replicate 8 0) (by decide)).1 (by decide)

/-! ## C10 — Metadata::read consumes exactly the prelude plus the frame -/

/-- C10: a successful `Metadata::read` consumes exactly `8 + frame_size`
bytes of the stream — the remainder is the input past that point, the
first byte of the compressed record body — and the decoded metadata comes
from exactly the `frame_size` buffered payload bytes. -/
theorem c10_read_consumes_exactly_frame (input : List Nat) (m : Metadata)
    (rest : List Nat) (h : Metadata.read input = (.ok m, rest)) :
    8 + leNat ((input.drop 4).take 4) ≤ input.length ∧
    rest = input.drop (8 + leNat ((input.drop 4).take 4)) ∧
    Metadata.decode ((input.drop 8).take (leNat ((input.drop 4).take 4))) =
      .ok m := by
  unfold Metadata.read at h
  split at h
  · exact absurd h (by simp)
  · split at h
    · exact absurd h (by simp)
    · split at h
      · exact absurd h (by simp)
      · split at h
        · exact absurd h (by simp)
        · rename_i hlen hmagic hframe havail
          have h1 := congrArg Prod.fst h
          have h2 := congrArg Prod.snd h
          simp only at h1 h2
          have hd : (input.drop 8).length = input.length - 8 := by
            simp [List.length_drop]
          exact ⟨by omega, h2.symm, h1⟩

set_option maxRecDepth 100000 in
/-- C10 witness: reading the concrete valid artifact succeeds, consumes
all `8 + 116` bytes and decodes exactly the 116-byte payload. -/
theorem c10_read_consumes_exactly_frame_witness :
    8 + leNat ((validArtifact.drop 4).take 4) ≤ validArtifact.length ∧
    ([] : List Nat) =
      validArtifact.drop (8 + leNat ((validArtifact.drop 4).take 4)) ∧
    Metadata.decode
        ((validArtifact.drop 8).take (leNat ((validArtifact.drop 4).take 4))) =
      .ok sampleMetadata :=
  c10_read_consumes_exactly_frame validArtifact sampleMetadata [] (by decide)

/-! ## C3 — truncation inside the schema-definition-length field panics -/

/-- C3: the code contradicts the truncation-safety requirement. A
metadata payload that is a 96-byte prefix of a valid payload — long
enough to pass `Metadata::read`'s `frame_size ≥ 96` check but ending
before the schema-definition-length field — makes `Metadata::decode`
panic (the unchecked `split_at` of `u32::from_le_slice` at offset 96)
instead of returning a truncated-metadata error; through `Metadata::read`
a whole artifact declaring `frame_size = 96` panics the same way. -/
theorem c3_truncated_sdl_panics :
    (validPayload116.take 96).length = 96 ∧
    Metadata.decode (validPayload116.take 96) = .panic ∧
    Metadata.read
        (leBytes 4 ZSTD_MAGIC_LO ++ leBytes 4 96 ++ validPayload116.take 96) =
      (.panic, []) := by
  refine ⟨by decide, by decide, by decide⟩

/-! ## C2 — writer failure on an unwritable schema -/

/-- An encoded metadata frame is never empty: it starts with the 4-byte
skippable-frame magic. -/
theorem Metadata.encode_ne_nil (m : Metadata) : m.encode ≠ [] := by
  simp [Metadata.encode, leBytes]

/-- C2 counterexample: calling `write_dbz_file` with schema "status"
(which matches no writable record variant) fails not with a type-mismatch
error but with an unsupported-schema `ValueError`, and the sink is not
byte-for-byte unchanged: the encoded metadata has already been written to
it. -/
theorem c2_counterexample :
    (writeDbzFile "status" "product_id" [71, 76, 66, 88] []).1 =
      .error (.valueError "Unsupported schema type for writing DBZ files") ∧
    (writeDbzFile "status" "product_id" [71, 76, 66, 88] []).1 ≠
      .error .typeMismatch ∧
    (writeDbzFile "status" "product_id" [71, 76, 66, 88] []).2 ≠ [] := by
  refine ⟨rfl, fun h => ?_, fun h => Metadata.encode_ne_nil _ h⟩
  rw [show (writeDbzFile "status" "product_id" [71, 76, 66, 88] []).1 =
    Except.error
      (WriteError.valueError "Unsupported schema type for writing DBZ files")
    from rfl] at h
  injection h with h
  exact WriteError.noConfusion h

/-- C2 amended: whenever the declared schema has no writable record
variant (Definition, Statistics, Status), `write_dbz_file` fails with the
unsupported-schema `ValueError` — but only after the encoded metadata has
been written: on this error the sink holds exactly the (non-empty)
encoded metadata, not its original contents. For writable schemas the
record variant is chosen by matching on the schema itself, so a declared
schema cannot disagree with the variant's type-ID. -/
theorem c2_unsupported_schema_fails_after_metadata
    (schemaStr stypeStr : String) (dataset : List Nat)
    (records : List PyDict) (sch : Schema) (st : SType)
    (hs : Schema.parse schemaStr = some sch)
    (hv : sch.variantFor = none)
    (ht : SType.parse stypeStr = some st) :
    writeDbzFile schemaStr stypeStr dataset records =
      (.error (.valueError "Unsupported schema type for writing DBZ files"),
        (writeDbzFileMetadata sch st dataset records.length).encode) ∧
    (writeDbzFileMetadata sch st dataset records.length).encode ≠ [] := by
  refine ⟨?_, Metadata.encode_ne_nil _⟩
  simp only [writeDbzFile, hs, ht, hv]

/-- C2 amended witness: the concrete "status" call fails with the
unsupported-schema error and leaves the encoded metadata on the sink. -/
theorem c2_unsupported_schema_fails_after_metadata_witness :
    writeDbzFile "status" "product_id" [] [] =
      (.error (.valueError "Unsupported schema type for writing DBZ files"),
        (writeDbzFileMetadata .status .productId [] 0).encode) ∧
    (writeDbzFileMetadata .status .productId [] 0).encode ≠ [] :=
  c2_unsupported_schema_fails_after_metadata "status" "product_id" [] []
    .status .productId (by decide) (by decide) (by decide)

/-! ## C9 — the metadata write_dbz_file infers -/

/-- C9: for every `write_dbz_file` call whose schema and stype strings
parse (with `n` record dicts, `n = 0` included), the metadata encoded at
the head of the output is the encoding of a `Metadata` whose
`record_count` is `n` and whose `start`, `end` and `limit` are 0, with
`symbols`, `partial`, `not_found` and `mappings` all empty. -/
theorem c9_write_dbz_file_metadata_fields
    (schemaStr stypeStr : String) (dataset : List Nat)
    (records : List PyDict) (sch : Schema) (st : SType)
    (hs : Schema.parse schemaStr = some sch)
    (ht : SType.parse stypeStr = some st) :
    (∃ rest, (writeDbzFile schemaStr stypeStr dataset records).2 =
      (writeDbzFileMetadata sch st dataset records.length).encode ++ rest)
    ∧ (writeDbzFileMetadata sch st dataset records.length).record_count =
        records.length
    ∧ (writeDbzFileMetadata sch st dataset records.length).start = 0
    ∧ (writeDbzFileMetadata sch st dataset records.length).endTs = 0
    ∧ (writeDbzFileMetadata sch st dataset records.length).limit = 0
    ∧ (writeDbzFileMetadata sch st dataset records.length).symbols = []
    ∧ (writeDbzFileMetadata sch st dataset records.length).partialSyms = []
    ∧ (writeDbzFileMetadata sch st dataset records.length).not_found = []
    ∧ (writeDbzFileMetadata sch st dataset records.length).mappings = [] := by
  refine ⟨?_, rfl, rfl, rfl, rfl, rfl, rfl, rfl, rfl⟩
  cases hv : sch.variantFor with
  | none =>
    exact ⟨[], by simp only [writeDbzFile, hs, ht, hv, List.append_nil]⟩
  | some v =>
    cases hm : convertRecords v records with
    | none =>
      exact ⟨[], by simp only [writeDbzFile, hs, ht, hv, hm, List.append_nil]⟩
    | some recs =>
      exact ⟨zstdCompress recs.flatten,
        by simp only [writeDbzFile, hs, ht, hv, hm]⟩

/-- C9 witness: a call with schema "mbo", stype "product_id" and an empty
record list writes a head whose metadata has `record_count = 0`, zero
`start`, `end` and `limit`, and empty symbol sections. -/
theorem c9_write_dbz_file_metadata_fields_witness :
    (∃ rest, (writeDbzFile "mbo" "product_id" [] []).2 =
      (writeDbzFileMetadata .mbo .productId []
        (List.length ([] : List PyDict))).encode ++ rest)
    ∧ (writeDbzFileMetadata .mbo .productId []
        (List.length ([] : List PyDict))).record_count =
        List.length ([] : List PyDict)
    ∧ (writeDbzFileMetadata .mbo .productId []
        (List.length ([] : List PyDict))).start = 0
    ∧ (writeDbzFileMetadata .mbo .productId []
        (List.length ([] : List PyDict))).endTs = 0
    ∧ (writeDbzFileMetadata .mbo .productId []
        (List.length ([] : List PyDict))).limit = 0
    ∧ (writeDbzFileMetadata .mbo .productId []
        (List.length ([] : List PyDict))).symbols = []
    ∧ (writeDbzFileMetadata .mbo .productId []
        (List.length ([] : List PyDict))).partialSyms = []
    ∧ (writeDbzFileMetadata .mbo .productId []
        (List.length ([] : List PyDict))).not_found = []
    ∧ (writeDbzFileMetadata .mbo .productId []
        (List.length ([] : List PyDict))).mappings = [] :=
  c9_write_dbz_file_metadata_fields "mbo" "product_id" [] [] .mbo .productId
    (by decide) (by decide)

/-! ## C8 — the version check of Metadata::decode -/

/-- True unless the error is one of the two version-validation errors. -/
def errVersionFree : DbzError → Bool
  | .invalidVersionString => false
  | .unsupportedVersion => false
  | _ => true

/-- True unless the result is one of the two version-validation errors. -/
def resultVersionFree {α : Type} : DResult α → Bool
  | .err e => errVersionFree e
  | _ => true

/-- `decode_iso8601` never produces a version-validation error. -/
theorem resultVersionFree_iso8601 (raw : Nat) :
    resultVersionFree (Metadata.decodeIso8601 raw) = true := by
  unfold Metadata.decodeIso8601
  split
  · rfl
  · split <;> rfl

/-- `decode_symbol` never produces a version-validation error. -/
theorem resultVersionFree_decodeSymbol (buffer : List Nat) (pos : Nat) :
    resultVersionFree (Metadata.decodeSymbol buffer pos).1 = true := by
  unfold Metadata.decodeSymbol
  split
  · split <;> rfl
  · rfl

/-- The symbol loop never produces a version-validation error. -/
theorem resultVersionFree_symbolsLoop (n : Nat) (buffer : List Nat)
    (pos : Nat) :
    resultVersionFree (decodeSymbolsLoop buffer pos n).1 = true := by
  induction n generalizing pos with
  | zero => rfl
  | succ n ih =>
    unfold decodeSymbolsLoop
    split
    · rename_i s pos1 heq1
      split
      · rfl
      · rename_i e p heq
        have h := ih pos1
        rw [heq] at h
        exact h
      · rfl
    · rename_i e p heq
      have h := resultVersionFree_decodeSymbol buffer pos
      rw [heq] at h
      exact h
    · rfl

/-- The mapping-interval loop never produces a version-validation
error. -/
theorem resultVersionFree_intervalsLoop (n : Nat) (buffer : List Nat)
    (pos : Nat) :
    resultVersionFree (decodeIntervalsLoop buffer pos n).1 = true := by
  induction n generalizing pos with
  | zero => rfl
  | succ n ih =>
    unfold decodeIntervalsLoop
    split
    · rfl
    · rename_i rawStart heqR1
      split
      · rename_i e heq
        have h := resultVersionFree_iso8601 rawStart
        rw [heq] at h
        exact h
      · rfl
      · split
        · rfl
        · rename_i rawEnd heqR2
          split
          · rename_i e heq
            have h := resultVersionFree_iso8601 rawEnd
            rw [heq] at h
            exact h
          · rfl
          · split
            · rename_i s pos1 heqS
              split
              · rfl
              · rename_i e p heq
                have h := ih pos1
                rw [heq] at h
                exact h
              · rfl
            · rename_i e p heq
              have h := resultVersionFree_decodeSymbol buffer (pos + 8)
              rw [heq] at h
              exact h
            · rfl

/-- `decode_symbol_mapping` never produces a version-validation error. -/
theorem resultVersionFree_symbolMapping (buffer : List Nat) (pos : Nat) :
    resultVersionFree (Metadata.decodeSymbolMapping buffer pos).1 = true := by
  unfold Metadata.decodeSymbolMapping
  split
  · rfl
  · split
    · rename_i native pos1 heqN
      split
      · rfl
      · rename_i icount heqC
        split
        · rfl
        · split
          · rfl
          · rename_i e p heq
            have h := resultVersionFree_intervalsLoop icount buffer (pos1 + 4)
            rw [heq] at h
            exact h
          · rfl
    · rename_i e p heq
      have h := resultVersionFree_decodeSymbol buffer pos
      rw [heq] at h
      exact h
    · rfl

/-- The symbol-mapping loop never produces a version-validation error. -/
theorem resultVersionFree_mappingsLoop (n : Nat) (buffer : List Nat)
    (pos : Nat) :
    resultVersionFree (decodeMappingsLoop buffer pos n).1 = true := by
  induction n generalizing pos with
  | zero => rfl
  | succ n ih =>
    unfold decodeMappingsLoop
    split
    · rename_i sm pos1 heqS
      split
      · rfl
      · rename_i e p heq
        have h := ih pos1
        rw [heq] at h
        exact h
      · rfl
    · rename_i e p heq
      have h := resultVersionFree_symbolMapping buffer pos
      rw [heq] at h
      exact h
    · rfl

/-- `decode_repeated_symbol_cstr` never produces a version-validation
error. -/
theorem resultVersionFree_rscstr (buffer : List Nat) (pos : Nat) :
    resultVersionFree (Metadata.decodeRepeatedSymbolCstr buffer pos).1 =
      true := by
  unfold Metadata.decodeRepeatedSymbolCstr
  split
  · rfl
  · split
    · rfl
    · split
      · rfl
      · exact resultVersionFree_symbolsLoop _ buffer _

/-- `decode_symbol_mappings` never produces a version-validation error. -/
theorem resultVersionFree_symbolMappings (buffer : List Nat) (pos : Nat) :
    resultVersionFree (Metadata.decodeSymbolMappings buffer pos).1 =
      true := by
  unfold Metadata.decodeSymbolMappings
  split
  · rfl
  · split
    · rfl
    · exact resultVersionFree_mappingsLoop _ buffer _

/-- An error coming out of `decode_repeated_symbol_cstr` is never a
version-validation error. -/
theorem rscstr_err_versionFree {buffer : List Nat} {pos : Nat}
    {e : DbzError} {p : Nat}
    (h : Metadata.decodeRepeatedSymbolCstr buffer pos = (.err e, p)) :
    errVersionFree e = true := by
  have hh := resultVersionFree_rscstr buffer pos
  rw [h] at hh
  exact hh

/-- An error coming out of `decode_symbol_mappings` is never a
version-validation error. -/
theorem symbolMappings_err_versionFree {buffer : List Nat} {pos : Nat}
    {e : DbzError} {p : Nat}
    (h : Metadata.decodeSymbolMappings buffer pos = (.err e, p)) :
    errVersionFree e = true := by
  have hh := resultVersionFree_symbolMappings buffer pos
  rw [h] at hh
  exact hh

/-- Once the version C-string check and the version-number check have
passed, no later step of `Metadata::decode` produces either
version-validation error. -/
theorem decode_passes_version (buffer : List Nat)
    (h3 : buffer.take 3 = [68, 66, 90]) (v : Nat)
    (hv : buffer[3]? = some v) (hv1 : v ≤ SCHEMA_VERSION) :
    resultVersionFree (Metadata.decode buffer) = true := by
  unfold Metadata.decode
  repeat' split
  all_goals try rfl
  all_goals try (exact absurd h3 (by assumption))
  all_goals try
    (exfalso
     rename_i count heqv hgt
     rw [hv] at heqv
     cases heqv
     exact absurd hgt (not_lt.mpr hv1))
  all_goals
    (rename_i e p heq
     first
       | exact rscstr_err_versionFree heq
       | exact symbolMappings_err_versionFree heq)

/-- C8: a metadata payload (of at least the 4-byte version C-string) not
starting with the ASCII bytes "DBZ" is rejected as an invalid version
string; one starting with "DBZ" whose version byte at offset 3 exceeds
`SCHEMA_VERSION = 1` is rejected as an unsupported version; and one
starting with "DBZ" whose version byte is at most 1 passes the version
check — decoding never fails with either version error. -/
theorem c8_version_check (buffer : List Nat) (h4 : 4 ≤ buffer.length) :
    (buffer.take 3 ≠ [68, 66, 90] →
      Metadata.decode buffer = .err .invalidVersionString)
    ∧ (∀ v, buffer.take 3 = [68, 66, 90] → buffer[3]? = some v → 1 < v →
      Metadata.decode buffer = .err .unsupportedVersion)
    ∧ (∀ v, buffer.take 3 = [68, 66, 90] → buffer[3]? = some v → v ≤ 1 →
      Metadata.decode buffer ≠ .err .invalidVersionString ∧
      Metadata.decode buffer ≠ .err .unsupportedVersion) := by
  refine ⟨fun hne => ?_, fun v h3 hv hgt => ?_, fun v h3 hv hle => ?_⟩
  · unfold Metadata.decode
    rw [if_neg (by omega), if_pos hne]
  · unfold Metadata.decode
    rw [if_neg (by omega), if_neg (not_not_intro h3)]
    split
    · rename_i heq
      rw [heq] at hv
      exact absurd hv (by simp)
    · rename_i version heq
      rw [heq] at hv
      injection hv with hv
      subst hv
      rw [if_pos (show version > SCHEMA_VERSION from hgt)]
  · have hfree := decode_passes_version buffer h3 v hv hle
    constructor <;> intro hEq <;> rw [hEq] at hfree <;>
      exact absurd hfree (by simp [resultVersionFree, errVersionFree])

/-- C8 witness: a payload with the wrong magic string fails as an invalid
version string; "DBZ" with version byte 2 fails as an unsupported
version; "DBZ" with version byte 1 fails with neither version error. -/
theorem c8_version_check_witness :
    Metadata.decode [65, 66, 67, 0] = .err .invalidVersionString ∧
    Metadata.decode [68, 66, 90, 2] = .err .unsupportedVersion ∧
    Metadata.decode [68, 66, 90, 1] ≠ .err .invalidVersionString ∧
    Metadata.decode [68, 66, 90, 1] ≠ .err .unsupportedVersion :=
  ⟨(c8_version_check [65, 66, 67, 0] (by decide)).1 (by decide),
    (c8_version_check [68, 66, 90, 2] (by decide)).2.1 2 (by decide) rfl
      (by decide),
    ((c8_version_check [68, 66, 90, 1] (by decide)).2.2 1 (by decide) rfl
      (by decide)).1,
    ((c8_version_check [68, 66, 90, 1] (by decide)).2.2 1 (by decide) rfl
      (by decide)).2⟩

end DbzSpec
